import Mathlib

/-
Shallow embedding of src/contrib/IECoreArnold/src/IECoreArnold/ShapeAlgo.cpp.

The module converts IECore primitives into parameters on an Arnold shape
node.  External collaborators (the Arnold node/array API and the
ParameterAlgo utilities) are modelled abstractly; the translation logic of
ShapeAlgo.cpp itself is embedded function by function.  Mutations of the
renderer node and emitted warnings are recorded as an event trace.
-/

/-- Cortex primitive-variable interpolation classes
(IECore PrimitiveVariable::Interpolation). -/
inductive Interp where
  | Invalid
  | Constant
  | Uniform
  | Vertex
  | Varying
  | FaceVarying
deriving DecidableEq, Repr

/-- Attribute data payloads.  Float values are modelled as rationals; the
only arithmetic the code performs on them is halving, which is exact. -/
inductive Data where
  | floatData (v : ℚ)
  | floatVectorData (v : List ℚ)
  | v3fVectorData (v : List (ℚ × ℚ × ℚ))
  | intData (v : Int)
  | stringData (v : String)
deriving DecidableEq, Repr

/-- A primitive variable: an interpolation class plus a data payload. -/
structure PrimitiveVariable where
  interpolation : Interp
  data : Data
deriving DecidableEq, Repr

/-- Concrete primitive kinds relevant to ShapeAlgo's isInstanceOf checks. -/
inductive PrimKind where
  | points
  | mesh
  | curves
  | other
deriving DecidableEq, Repr

/-- Modelled from the spec: a primitive exposes an ordered, name-keyed set of
variables, a kind discriminator, and a variableSize query giving the element
count expected for each interpolation class.  (IECore::Primitive is an
external collaborator of ShapeAlgo.cpp; only the queries the code uses are
modelled.) -/
structure Primitive where
  vars : List (String × PrimitiveVariable)
  kind : PrimKind
  variableSize : Interp → Nat

/-- Look up a variable by name (first match, as in a keyed map). -/
def findVariable (p : Primitive) (name : String) : Option PrimitiveVariable :=
  (p.vars.find? (fun v => v.1 == name)).map Prod.snd

/-- Modelled from the spec: Primitive::variableData(name, interpolation)
returns the payload of the named variable when it exists and, if an
interpolation filter is supplied, the variable's interpolation matches it. -/
def variableData (p : Primitive) (name : String) (interp : Option Interp) : Option Data :=
  match findVariable p name with
  | none => none
  | some v =>
    match interp with
    | none => some v.data
    | some i => if v.interpolation = i then some v.data else none

/-- Downcast of a payload to FloatData, as variableData's template cast. -/
def asFloatData : Data → Option ℚ
  | .floatData v => some v
  | _ => none

/-- Downcast of a payload to FloatVectorData. -/
def asFloatVectorData : Data → Option (List ℚ)
  | .floatVectorData v => some v
  | _ => none

/-- Downcast of a payload to V3fVectorData. -/
def asV3fVectorData : Data → Option (List (ℚ × ℚ × ℚ))
  | .v3fVectorData v => some v
  | _ => none

/-- variableData typed at FloatData. -/
def variableFloatData (p : Primitive) (name : String) (interp : Option Interp) : Option ℚ :=
  (variableData p name interp).bind asFloatData

/-- variableData typed at FloatVectorData. -/
def variableFloatVectorData (p : Primitive) (name : String) (interp : Option Interp) : Option (List ℚ) :=
  (variableData p name interp).bind asFloatVectorData

/-- variableData typed at V3fVectorData. -/
def variableV3fVectorData (p : Primitive) (name : String) (interp : Option Interp) : Option (List (ℚ × ℚ × ℚ)) :=
  (variableData p name interp).bind asV3fVectorData

/-- The radius helper of ShapeAlgo.cpp: derive the per-element radius list.
Mirrors the source control flow: per-element FloatVectorData "radius" first;
otherwise constant FloatData "radius"; otherwise per-element FloatVectorData
"width" halved; otherwise constant "width" or "constantwidth" halved;
otherwise the 0.5 fallback. -/
def radius (p : Primitive) : List ℚ :=
  match variableFloatVectorData p "radius" none with
  | some r => r
  | none =>
    match variableFloatData p "radius" (some Interp.Constant) with
    | some constantRadius => [constantRadius]
    | none =>
      match variableFloatVectorData p "width" none with
      | some width => width.map (fun w => w / 2)
      | none =>
        match (variableFloatData p "width" (some Interp.Constant)).orElse
            (fun _ => variableFloatData p "constantwidth" (some Interp.Constant)) with
        | some constantWidth => [constantWidth / 2]
        | none => [(1 : ℚ) / 2]

/-- Modelled from the spec's words for claim C1 (refinement comparison):
the claimed precedence order is per-element radius, then per-element width
halved, then constant radius, then constant width or its alias halved, then
the 0.5 fallback. -/
def radiusClaimedC1 (p : Primitive) : List ℚ :=
  match variableFloatVectorData p "radius" none with
  | some r => r
  | none =>
    match variableFloatVectorData p "width" none with
    | some width => width.map (fun w => w / 2)
    | none =>
      match variableFloatData p "radius" (some Interp.Constant) with
      | some constantRadius => [constantRadius]
      | none =>
        match (variableFloatData p "width" (some Interp.Constant)).orElse
            (fun _ => variableFloatData p "constantwidth" (some Interp.Constant)) with
        | some constantWidth => [constantWidth / 2]
        | none => [(1 : ℚ) / 2]

/-- Modelled from the spec's words for the amended claim C1 (refinement
comparison): per-element radius, then constant radius, then per-element width
halved, then constant width or its alias halved, then the 0.5 fallback;
written as an option chain rather than the source's if/else ladder. -/
def radiusAmendedC1 (p : Primitive) : List ℚ :=
  (((variableFloatVectorData p "radius" none).orElse (fun _ =>
      (variableFloatData p "radius" (some Interp.Constant)).map (fun c => [c]))).orElse
    (fun _ =>
      ((variableFloatVectorData p "width" none).map (fun w => w.map (fun x => x / 2))).orElse
        (fun _ =>
          some [(((variableFloatData p "width" (some Interp.Constant)).orElse
              (fun _ => variableFloatData p "constantwidth" (some Interp.Constant))).getD 1) / 2]))).getD
    [(1 : ℚ) / 2]

/-- Arnold parameter element types used by this module. -/
inductive AiType where
  | NONE
  | UINT
  | INT
  | FLOAT
  | POINT
  | STRING
deriving DecidableEq, Repr

/-- AiParamGetTypeName for the modelled types. -/
def typeName : AiType → String
  | .NONE => "NONE"
  | .UINT => "UINT"
  | .INT => "INT"
  | .FLOAT => "FLOAT"
  | .POINT => "POINT"
  | .STRING => "STRING"

/-- An Arnold array handle: element count, element type and, for the UINT
index arrays this module itself fills in, the integer contents. -/
structure AtArray where
  nelements : Nat
  type : AiType
  ivalues : List Nat
deriving DecidableEq, Repr

/-- identityIndices of ShapeAlgo.cpp: allocate a UINT array of the given
size and fill slot i with value i.  The filled contents are 0..size-1. -/
def identityIndices (size : Nat) : AtArray :=
  { nelements := size, type := AiType.UINT, ivalues := List.range size }

/-- One observable effect of the conversion routines: a renderer-node
mutation or a warning sent to the message handler. -/
inductive Event where
  | warnBuiltinClash (name : String)
  | warnUnsupportedInterpolation (name : String)
  | warnUnsupportedType (name : String)
  | warnFailedToCreateArray (name : String)
  | setParameter (name : String) (data : Data)
  | declare (name : String) (typeString : String)
  | setArray (name : String) (array : Option AtArray)
deriving DecidableEq, Repr

/-- Modelled from the spec: the external collaborators ShapeAlgo.cpp calls
into, treated as black boxes — ParameterAlgo::parameterType (element type
plus array flag), ParameterAlgo::dataToArray for one payload and for a list
of motion samples (may fail, returning null), and AiArrayConvert. -/
structure Externals where
  parameterType : Data → AiType × Bool
  dataToArray1 : Data → AiType → Option AtArray
  dataToArrayN : List Data → AiType → Option AtArray
  arrayConvert : Nat → AiType → Data → AtArray

/-- The interpolation classification switch of convertPrimitiveVariable:
Constant, Uniform and Varying map directly; FaceVarying maps to "indexed"
on meshes and otherwise falls through to the Vertex rule; Vertex maps to
"varying" only when the variable's own element count equals the Varying
count; otherwise the empty string marks an unsupported interpolation. -/
def arnoldInterpolationOf (p : Primitive) (interp : Interp) : String :=
  match interp with
  | .Constant => "constant"
  | .Uniform => "uniform"
  | .Varying => "varying"
  | .FaceVarying =>
    if p.kind = PrimKind.mesh then "indexed"
    else if p.variableSize Interp.FaceVarying = p.variableSize Interp.Varying then "varying"
    else ""
  | .Vertex =>
    if p.variableSize Interp.Vertex = p.variableSize Interp.Varying then "varying"
    else ""
  | .Invalid => ""

/-- The PointsPrimitive special case of convertPrimitiveVariable: on a
points primitive "uniform" becomes "constant" and "varying" becomes
"uniform"; everything else is untouched. -/
def remapForPoints (p : Primitive) (s : String) : String :=
  if p.kind = PrimKind.points then
    if s = "uniform" then "constant"
    else if s = "varying" then "uniform"
    else s
  else s

/-- convertPrimitiveVariable of ShapeAlgo.cpp as an event trace.  The
builtin-parameter check comes first; then the interpolation classification
and the points remap; constant data goes through setParameter; array data is
declared, converted and attached, with an identity index array appended in
"indexed" mode; each failure path emits exactly one warning. -/
def convertPrimitiveVariable (ext : Externals) (p : Primitive) (pv : PrimitiveVariable)
    (entry : List String) (name : String) : List Event :=
  if name ∈ entry then
    [Event.warnBuiltinClash name]
  else
    let i0 := arnoldInterpolationOf p pv.interpolation
    if i0 = "" then
      [Event.warnUnsupportedInterpolation name]
    else
      let arnoldInterpolation := remapForPoints p i0
      if arnoldInterpolation = "constant" then
        [Event.setParameter name pv.data]
      else
        let tp := ext.parameterType pv.data
        if tp.1 = AiType.NONE ∨ tp.2 = false then
          [Event.warnUnsupportedType name]
        else
          let typeString := arnoldInterpolation ++ " " ++ typeName tp.1
          match ext.dataToArray1 pv.data tp.1 with
          | some array =>
            [Event.declare name typeString, Event.setArray name (some array)] ++
              (if arnoldInterpolation = "indexed" then
                [Event.setArray (name ++ "idxs") (some (identityIndices array.nelements))]
              else [])
          | none =>
            [Event.declare name typeString, Event.warnFailedToCreateArray name]

/-- The exception message of convertP. -/
def missingPMessage : String :=
  "Primitive does not have \"P\" primitive variable of interpolation type Vertex."

/-- Single-sample convertP: require a Vertex-interpolated V3fVectorData "P";
throw (second component) without touching the node when it is missing,
otherwise attach the converted point array. -/
def convertP1 (ext : Externals) (p : Primitive) (name : String) :
    List Event × Option String :=
  match variableV3fVectorData p "P" (some Interp.Vertex) with
  | none => ([], some missingPMessage)
  | some pts =>
    ([Event.setArray name (some (ext.arrayConvert pts.length AiType.POINT (Data.v3fVectorData pts)))],
      none)

/-- The sample-gathering loop of multi-sample convertP: collect each
sample's "P" payload, failing if any sample lacks it.  In the source the
throw happens before any node mutation. -/
def gatherP : List Primitive → Option (List Data)
  | [] => some []
  | s :: rest =>
    match variableV3fVectorData s "P" (some Interp.Vertex) with
    | none => none
    | some pts => (gatherP rest).map (fun ds => Data.v3fVectorData pts :: ds)

/-- Multi-sample convertP: gather every sample's position payload first,
then build one motion array and attach it; on a missing "P" the throw
leaves the node untouched. -/
def convertPN (ext : Externals) (samples : List Primitive) (name : String) :
    List Event × Option String :=
  match gatherP samples with
  | none => ([], some missingPMessage)
  | some ds => ([Event.setArray name (ext.dataToArrayN ds AiType.POINT)], none)

/-- The namesToIgnore membership test of convertPrimitiveVariables: a null
pointer skips nothing; otherwise scan the null-terminated name list. -/
def shouldSkip (namesToIgnore : Option (List String)) (name : String) : Bool :=
  match namesToIgnore with
  | none => false
  | some ns => ns.any (fun n => name == n)

/-- The loop body of convertPrimitiveVariables: walk the variable map in
order, skip ignored names, and otherwise invoke convertPrimitiveVariable,
recording each invocation as (attribute name, its event trace). -/
def convertLoop (ext : Externals) (p : Primitive) (entry : List String)
    (namesToIgnore : Option (List String)) :
    List (String × PrimitiveVariable) → List (String × List Event)
  | [] => []
  | v :: rest =>
    if shouldSkip namesToIgnore v.1 then
      convertLoop ext p entry namesToIgnore rest
    else
      (v.1, convertPrimitiveVariable ext p v.2 entry v.1) ::
        convertLoop ext p entry namesToIgnore rest

/-- convertPrimitiveVariables of ShapeAlgo.cpp: apply the loop to the
primitive's full variable map. -/
def convertPrimitiveVariables (ext : Externals) (p : Primitive) (entry : List String)
    (namesToIgnore : Option (List String)) : List (String × List Event) :=
  convertLoop ext p entry namesToIgnore p.vars

/-- A sample instantiation of the external collaborators, used to exercise
the theorems on concrete inputs: vector payloads are array-compatible,
IntData is detected as an array type whose array construction fails, and
scalar payloads are not array-compatible. -/
def extSample : Externals where
  parameterType := fun d =>
    match d with
    | .floatVectorData _ => (AiType.FLOAT, true)
    | .v3fVectorData _ => (AiType.POINT, true)
    | .intData _ => (AiType.INT, true)
    | .floatData _ => (AiType.FLOAT, false)
    | .stringData _ => (AiType.STRING, false)
  dataToArray1 := fun d _ =>
    match d with
    | .floatVectorData v => some { nelements := v.length, type := AiType.FLOAT, ivalues := [] }
    | .v3fVectorData v => some { nelements := v.length, type := AiType.POINT, ivalues := [] }
    | _ => none
  dataToArrayN := fun ds t => some { nelements := ds.length, type := t, ivalues := [] }
  arrayConvert := fun n t _ => { nelements := n, type := t, ivalues := [] }

/-- A primitive with no variables at all. -/
def primEmpty : Primitive where
  vars := []
  kind := PrimKind.curves
  variableSize := fun _ => 0

/-- A primitive carrying both a constant radius and a per-element width. -/
def primC1 : Primitive where
  vars := [("radius", { interpolation := Interp.Constant, data := Data.floatData 3 }),
           ("width", { interpolation := Interp.Vertex, data := Data.floatVectorData [2, 4] })]
  kind := PrimKind.curves
  variableSize := fun _ => 0

/-- A primitive whose per-element radius variable is an empty vector. -/
def primC6 : Primitive where
  vars := [("radius", { interpolation := Interp.Vertex, data := Data.floatVectorData [] })]
  kind := PrimKind.curves
  variableSize := fun _ => 0

/-- A curves-like primitive whose Vertex and Varying element counts
disagree, as for cubic curves. -/
def primSizeMismatch : Primitive where
  vars := []
  kind := PrimKind.curves
  variableSize := fun i =>
    match i with
    | .Vertex => 4
    | .Varying => 2
    | _ => 0

/-- A points primitive. -/
def primPoints : Primitive where
  vars := []
  kind := PrimKind.points
  variableSize := fun _ => 1

/-- A mesh primitive. -/
def primMesh : Primitive where
  vars := []
  kind := PrimKind.mesh
  variableSize := fun _ => 3

/-- A primitive with a position variable and one further attribute. -/
def primBulk : Primitive where
  vars := [("P", { interpolation := Interp.Vertex, data := Data.v3fVectorData [(0, 0, 0)] }),
           ("foo", { interpolation := Interp.Constant, data := Data.floatData 1 })]
  kind := PrimKind.curves
  variableSize := fun _ => 1

/-- A Vertex-interpolated float-vector variable with four elements. -/
def pvVertexW : PrimitiveVariable where
  interpolation := Interp.Vertex
  data := Data.floatVectorData [1, 2, 3, 4]

/-- A Uniform-interpolated scalar variable. -/
def pvUniformW : PrimitiveVariable where
  interpolation := Interp.Uniform
  data := Data.floatData 5

/-- A Varying-interpolated float-vector variable. -/
def pvVaryingW : PrimitiveVariable where
  interpolation := Interp.Varying
  data := Data.floatVectorData [1, 2]

/-- A FaceVarying-interpolated float-vector variable with three elements. -/
def pvFaceVaryingW : PrimitiveVariable where
  interpolation := Interp.FaceVarying
  data := Data.floatVectorData [5, 6, 7]

/-- A Constant-interpolated scalar variable. -/
def pvConstW : PrimitiveVariable where
  interpolation := Interp.Constant
  data := Data.floatData 2

/-- A Varying-interpolated IntData variable; extSample detects it as an
array type but fails to build the array. -/
def pvIntW : PrimitiveVariable where
  interpolation := Interp.Varying
  data := Data.intData 7

/-- A name clashing with a built-in parameter is skipped with one warning. -/
theorem convertPV_builtin (ext : Externals) (p : Primitive) (pv : PrimitiveVariable)
    (entry : List String) (name : String) (h : name ∈ entry) :
    convertPrimitiveVariable ext p pv entry name = [Event.warnBuiltinClash name] := by
  simp [convertPrimitiveVariable, h]

/-- An unmapped interpolation is skipped with one warning. -/
theorem convertPV_unsupportedInterp (ext : Externals) (p : Primitive) (pv : PrimitiveVariable)
    (entry : List String) (name : String) (hne : name ∉ entry)
    (h0 : arnoldInterpolationOf p pv.interpolation = "") :
    convertPrimitiveVariable ext p pv entry name = [Event.warnUnsupportedInterpolation name] := by
  simp [convertPrimitiveVariable, hne, h0]

/-- In resolved "constant" mode the conversion is a single scalar set. -/
theorem convertPV_constantMode (ext : Externals) (p : Primitive) (pv : PrimitiveVariable)
    (entry : List String) (name : String) (hne : name ∉ entry)
    (h0 : arnoldInterpolationOf p pv.interpolation ≠ "")
    (hc : remapForPoints p (arnoldInterpolationOf p pv.interpolation) = "constant") :
    convertPrimitiveVariable ext p pv entry name = [Event.setParameter name pv.data] := by
  simp [convertPrimitiveVariable, hne, h0, hc]

/-- A payload with no array-compatible type is skipped with one warning. -/
theorem convertPV_unsupportedType (ext : Externals) (p : Primitive) (pv : PrimitiveVariable)
    (entry : List String) (name : String) (t : AiType) (b : Bool) (hne : name ∉ entry)
    (h0 : arnoldInterpolationOf p pv.interpolation ≠ "")
    (hc : remapForPoints p (arnoldInterpolationOf p pv.interpolation) ≠ "constant")
    (ht : ext.parameterType pv.data = (t, b))
    (hbad : t = AiType.NONE ∨ b = false) :
    convertPrimitiveVariable ext p pv entry name = [Event.warnUnsupportedType name] := by
  rcases hbad with hbad | hbad <;>
    simp [convertPrimitiveVariable, hne, h0, hc, ht, hbad]

/-- Successful array construction: declare, attach, and in "indexed" mode
attach the identity index array as well. -/
theorem convertPV_arraySome (ext : Externals) (p : Primitive) (pv : PrimitiveVariable)
    (entry : List String) (name : String) (t : AiType) (arr : AtArray) (hne : name ∉ entry)
    (h0 : arnoldInterpolationOf p pv.interpolation ≠ "")
    (hc : remapForPoints p (arnoldInterpolationOf p pv.interpolation) ≠ "constant")
    (ht : ext.parameterType pv.data = (t, true))
    (htn : t ≠ AiType.NONE)
    (ha : ext.dataToArray1 pv.data t = some arr) :
    convertPrimitiveVariable ext p pv entry name =
      [Event.declare name
          (remapForPoints p (arnoldInterpolationOf p pv.interpolation) ++ " " ++ typeName t),
        Event.setArray name (some arr)] ++
        (if remapForPoints p (arnoldInterpolationOf p pv.interpolation) = "indexed" then
          [Event.setArray (name ++ "idxs") (some (identityIndices arr.nelements))]
        else []) := by
  simp [convertPrimitiveVariable, hne, h0, hc, ht, htn, ha]

/-- Failed array construction: declare the parameter, then warn once. -/
theorem convertPV_arrayNone (ext : Externals) (p : Primitive) (pv : PrimitiveVariable)
    (entry : List String) (name : String) (t : AiType) (hne : name ∉ entry)
    (h0 : arnoldInterpolationOf p pv.interpolation ≠ "")
    (hc : remapForPoints p (arnoldInterpolationOf p pv.interpolation) ≠ "constant")
    (ht : ext.parameterType pv.data = (t, true))
    (htn : t ≠ AiType.NONE)
    (ha : ext.dataToArray1 pv.data t = none) :
    convertPrimitiveVariable ext p pv entry name =
      [Event.declare name
          (remapForPoints p (arnoldInterpolationOf p pv.interpolation) ++ " " ++ typeName t),
        Event.warnFailedToCreateArray name] := by
  simp [convertPrimitiveVariable, hne, h0, hc, ht, htn, ha]

/-- Claim C1, counterexample: a primitive with a Constant FloatData "radius"
and a per-element FloatVectorData "width" has no per-element float-vector
radius, yet the code derives the constant radius while the claimed
precedence (per-element width before constant radius) would halve the
widths. -/
theorem radius_precedence_counterexample :
    variableFloatVectorData primC1 "radius" none = none
    ∧ radius primC1 = [3]
    ∧ radiusClaimedC1 primC1 = [1, 2]
    ∧ radius primC1 ≠ radiusClaimedC1 primC1 := by
  have h2 : radius primC1 = [3] := rfl
  have h3 : radiusClaimedC1 primC1 = [2 / 2, 4 / 2] := rfl
  refine ⟨rfl, h2, ?_, ?_⟩
  · rw [h3]; norm_num
  · rw [h2, h3]; norm_num

/-- Claim C1 as amended: the derived radius list follows the precedence
order actually implemented — explicit per-element radius data, then
constant radius, then explicit per-element width (each element halved),
then constant width or the alias "constantwidth" (halved), then the 0.5
fallback. -/
theorem radius_precedence_amended (p : Primitive) : radius p = radiusAmendedC1 p := by
  unfold radius radiusAmendedC1
  cases h1 : variableFloatVectorData p "radius" none with
  | some r => simp [Option.orElse]
  | none =>
    cases h2 : variableFloatData p "radius" (some Interp.Constant) with
    | some c => simp [Option.orElse]
    | none =>
      cases h3 : variableFloatVectorData p "width" none with
      | some w => simp [Option.orElse]
      | none =>
        cases h4 : (variableFloatData p "width" (some Interp.Constant)).orElse
            (fun _ => variableFloatData p "constantwidth" (some Interp.Constant)) with
        | some cw => simp [Option.orElse, h4]
        | none => simp [Option.orElse, h4]

/-- Claim C6, counterexample: a primitive whose "radius" variable is an
empty FloatVectorData makes the derivation return the empty list, violating
the claimed at-least-one-element invariant. -/
theorem radius_nonempty_counterexample :
    radius primC6 = [] ∧ ¬(1 ≤ (radius primC6).length) := by
  constructor
  · rfl
  · rw [show radius primC6 = [] from rfl]
    simp

/-- Claim C6 as amended: the radius derivation yields at least one element
provided any per-element float-vector "radius" or "width" variable it reads
is non-empty; the constant and fallback branches always yield exactly one
element. -/
theorem radius_nonempty_amended (p : Primitive)
    (hr : ∀ v, variableFloatVectorData p "radius" none = some v → v ≠ [])
    (hw : ∀ v, variableFloatVectorData p "width" none = some v → v ≠ []) :
    radius p ≠ [] := by
  unfold radius
  cases h1 : variableFloatVectorData p "radius" none with
  | some r => exact hr r h1
  | none =>
    cases h2 : variableFloatData p "radius" (some Interp.Constant) with
    | some c => simp
    | none =>
      cases h3 : variableFloatVectorData p "width" none with
      | some w => simpa using hw w h3
      | none =>
        cases h4 : (variableFloatData p "width" (some Interp.Constant)).orElse
            (fun _ => variableFloatData p "constantwidth" (some Interp.Constant)) with
        | some cw => simp
        | none => simp

/-- Claim C6 witness: on the empty primitive the amended theorem applies and
the derivation indeed returns a non-empty (fallback) list. -/
theorem radius_nonempty_amended_witness : radius primEmpty ≠ [] :=
  radius_nonempty_amended primEmpty
    (fun v h => by simp [primEmpty, variableFloatVectorData, variableData, findVariable] at h)
    (fun v h => by simp [primEmpty, variableFloatVectorData, variableData, findVariable] at h)

/-- Claim C2: Constant, Uniform and Varying map directly to "constant",
"uniform" and "varying"; FaceVarying maps to "indexed" exactly on mesh
primitives and otherwise follows the Vertex rule; Vertex (and FaceVarying
on a non-mesh) maps to "varying" exactly when the variable's own element
count equals the Varying count, and otherwise no mapping is produced and
the conversion emits one unsupported-interpolation warning. -/
theorem interpolation_classification (ext : Externals) (p : Primitive)
    (pv : PrimitiveVariable) (entry : List String) (name : String) (hne : name ∉ entry) :
    (pv.interpolation = Interp.Constant → arnoldInterpolationOf p pv.interpolation = "constant")
    ∧ (pv.interpolation = Interp.Uniform → arnoldInterpolationOf p pv.interpolation = "uniform")
    ∧ (pv.interpolation = Interp.Varying → arnoldInterpolationOf p pv.interpolation = "varying")
    ∧ (pv.interpolation = Interp.FaceVarying →
        (arnoldInterpolationOf p pv.interpolation = "indexed" ↔ p.kind = PrimKind.mesh))
    ∧ ((pv.interpolation = Interp.FaceVarying ∧ p.kind ≠ PrimKind.mesh)
        ∨ pv.interpolation = Interp.Vertex →
        (arnoldInterpolationOf p pv.interpolation = "varying" ↔
          p.variableSize pv.interpolation = p.variableSize Interp.Varying)
        ∧ (p.variableSize pv.interpolation ≠ p.variableSize Interp.Varying →
            arnoldInterpolationOf p pv.interpolation = ""
            ∧ convertPrimitiveVariable ext p pv entry name =
                [Event.warnUnsupportedInterpolation name])) := by
  have hconst : arnoldInterpolationOf p Interp.Constant = "constant" := rfl
  have huni : arnoldInterpolationOf p Interp.Uniform = "uniform" := rfl
  have hvar : arnoldInterpolationOf p Interp.Varying = "varying" := rfl
  have hfvred : arnoldInterpolationOf p Interp.FaceVarying =
      (if p.kind = PrimKind.mesh then "indexed"
       else if p.variableSize Interp.FaceVarying = p.variableSize Interp.Varying then "varying"
       else "") := rfl
  have hvred : arnoldInterpolationOf p Interp.Vertex =
      (if p.variableSize Interp.Vertex = p.variableSize Interp.Varying then "varying"
       else "") := rfl
  refine ⟨fun h => by rw [h, hconst], fun h => by rw [h, huni], fun h => by rw [h, hvar], ?_, ?_⟩
  · intro h
    rw [h, hfvred]
    split_ifs with hmesh hsz
    · exact iff_of_true rfl hmesh
    · exact iff_of_false (by decide) hmesh
    · exact iff_of_false (by decide) hmesh
  · intro h
    rcases h with ⟨hfv, hm⟩ | hv
    · constructor
      · rw [hfv, hfvred]
        split_ifs with hmesh hsz
        · exact absurd hmesh hm
        · exact iff_of_true rfl hsz
        · exact iff_of_false (by decide) hsz
      · intro hs
        rw [hfv] at hs
        have h0 : arnoldInterpolationOf p pv.interpolation = "" := by
          rw [hfv, hfvred, if_neg hm, if_neg hs]
        exact ⟨h0, convertPV_unsupportedInterp ext p pv entry name hne h0⟩
    · constructor
      · rw [hv, hvred]
        split_ifs with hsz
        · exact iff_of_true rfl hsz
        · exact iff_of_false (by decide) hsz
      · intro hs
        rw [hv] at hs
        have h0 : arnoldInterpolationOf p pv.interpolation = "" := by
          rw [hv, hvred, if_neg hs]
        exact ⟨h0, convertPV_unsupportedInterp ext p pv entry name hne h0⟩

/-- Claim C2 witness: on a curves primitive whose Vertex count (4) differs
from its Varying count (2), a Vertex variable gets no mapping and the
conversion is a single unsupported-interpolation warning. -/
theorem interpolation_classification_witness :
    ("N" ∉ ([] : List String))
    ∧ arnoldInterpolationOf primSizeMismatch pvVertexW.interpolation = ""
    ∧ convertPrimitiveVariable extSample primSizeMismatch pvVertexW [] "N" =
        [Event.warnUnsupportedInterpolation "N"] := by
  have h := (interpolation_classification extSample primSizeMismatch pvVertexW [] "N"
      (by simp)).2.2.2.2 (Or.inr rfl) |>.2 (by decide)
  exact ⟨by simp, h.1, h.2⟩

/-- Claim C4: on a points primitive the resolved mode "uniform" is remapped
to "constant" and "varying" to "uniform", all other modes stay unchanged;
hence a Uniform attribute converts as a scalar "constant" parameter and a
Varying attribute is declared in "uniform" mode. -/
theorem points_remapping (ext : Externals) (p : Primitive) (pv : PrimitiveVariable)
    (entry : List String) (name : String) (hp : p.kind = PrimKind.points) (hne : name ∉ entry) :
    remapForPoints p "uniform" = "constant"
    ∧ remapForPoints p "varying" = "uniform"
    ∧ (∀ s, s ≠ "uniform" → s ≠ "varying" → remapForPoints p s = s)
    ∧ (pv.interpolation = Interp.Uniform →
        convertPrimitiveVariable ext p pv entry name = [Event.setParameter name pv.data])
    ∧ (pv.interpolation = Interp.Varying → ∀ t, ext.parameterType pv.data = (t, true) →
        t ≠ AiType.NONE →
        (convertPrimitiveVariable ext p pv entry name).head? =
          some (Event.declare name ("uniform " ++ typeName t))) := by
  have h1 : remapForPoints p "uniform" = "constant" := by
    unfold remapForPoints
    rw [if_pos hp, if_pos rfl]
  have h2 : remapForPoints p "varying" = "uniform" := by
    unfold remapForPoints
    rw [if_pos hp, if_neg (by decide), if_pos rfl]
  have h3 : ∀ s, s ≠ "uniform" → s ≠ "varying" → remapForPoints p s = s := by
    intro s hu hv
    unfold remapForPoints
    rw [if_pos hp, if_neg hu, if_neg hv]
  have hiu : arnoldInterpolationOf p Interp.Uniform = "uniform" := rfl
  have hiv : arnoldInterpolationOf p Interp.Varying = "varying" := rfl
  refine ⟨h1, h2, h3, ?_, ?_⟩
  · intro h
    exact convertPV_constantMode ext p pv entry name hne (by rw [h, hiu]; decide)
      (by rw [h, hiu]; exact h1)
  · intro h t ht htn
    have h0 : arnoldInterpolationOf p pv.interpolation ≠ "" := by rw [h, hiv]; decide
    have hcm : remapForPoints p (arnoldInterpolationOf p pv.interpolation) = "uniform" := by
      rw [h, hiv]; exact h2
    have hcne : remapForPoints p (arnoldInterpolationOf p pv.interpolation) ≠ "constant" := by
      rw [hcm]; decide
    cases ha : ext.dataToArray1 pv.data t with
    | some arr =>
      rw [convertPV_arraySome ext p pv entry name t arr hne h0 hcne ht htn ha, hcm]
      rfl
    | none =>
      rw [convertPV_arrayNone ext p pv entry name t hne h0 hcne ht htn ha, hcm]
      rfl

/-- Claim C4 witness: on a concrete points primitive, a Uniform scalar
attribute is set as a plain parameter and a Varying float-vector attribute
is declared with the "uniform" mode token. -/
theorem points_remapping_witness :
    convertPrimitiveVariable extSample primPoints pvUniformW [] "density" =
      [Event.setParameter "density" (Data.floatData 5)]
    ∧ (convertPrimitiveVariable extSample primPoints pvVaryingW [] "vcol").head? =
        some (Event.declare "vcol" "uniform FLOAT") :=
  ⟨(points_remapping extSample primPoints pvUniformW [] "density" rfl (by simp)).2.2.2.1 rfl,
    (points_remapping extSample primPoints pvVaryingW [] "vcol" rfl (by simp)).2.2.2.2 rfl
      AiType.FLOAT rfl (by decide)⟩

/-- Claim C5: a FaceVarying attribute on a mesh whose array is built
successfully is attached in "indexed" mode together with a companion
"idxs" array whose length equals the data array's element count and whose
values are the identity sequence 0..N-1. -/
theorem indexed_identity_indices (ext : Externals) (p : Primitive) (pv : PrimitiveVariable)
    (entry : List String) (name : String) (t : AiType) (arr : AtArray)
    (hne : name ∉ entry) (hmesh : p.kind = PrimKind.mesh)
    (hfv : pv.interpolation = Interp.FaceVarying)
    (ht : ext.parameterType pv.data = (t, true)) (htn : t ≠ AiType.NONE)
    (ha : ext.dataToArray1 pv.data t = some arr) :
    convertPrimitiveVariable ext p pv entry name =
      [Event.declare name ("indexed " ++ typeName t),
        Event.setArray name (some arr),
        Event.setArray (name ++ "idxs") (some (identityIndices arr.nelements))]
    ∧ (identityIndices arr.nelements).nelements = arr.nelements
    ∧ (identityIndices arr.nelements).ivalues = List.range arr.nelements := by
  have hfvred : arnoldInterpolationOf p Interp.FaceVarying =
      (if p.kind = PrimKind.mesh then "indexed"
       else if p.variableSize Interp.FaceVarying = p.variableSize Interp.Varying then "varying"
       else "") := rfl
  have hi : arnoldInterpolationOf p pv.interpolation = "indexed" := by
    rw [hfv, hfvred, if_pos hmesh]
  have hnp : p.kind ≠ PrimKind.points := by rw [hmesh]; decide
  have hrm : remapForPoints p (arnoldInterpolationOf p pv.interpolation) = "indexed" := by
    rw [hi]
    unfold remapForPoints
    rw [if_neg hnp]
  have h0 : arnoldInterpolationOf p pv.interpolation ≠ "" := by rw [hi]; decide
  have hcne : remapForPoints p (arnoldInterpolationOf p pv.interpolation) ≠ "constant" := by
    rw [hrm]; decide
  refine ⟨?_, rfl, rfl⟩
  rw [convertPV_arraySome ext p pv entry name t arr hne h0 hcne ht htn ha, hrm]
  rfl

/-- Claim C5 witness: a FaceVarying float-vector attribute on a concrete
mesh yields the indexed declaration, the data array, and the identity
"uvidxs" array 0,1,2. -/
theorem indexed_identity_indices_witness :
    convertPrimitiveVariable extSample primMesh pvFaceVaryingW [] "uv" =
      [Event.declare "uv" "indexed FLOAT",
        Event.setArray "uv" (some { nelements := 3, type := AiType.FLOAT, ivalues := [] }),
        Event.setArray "uvidxs" (some (identityIndices 3))]
    ∧ (identityIndices 3).ivalues = [0, 1, 2] :=
  ⟨(indexed_identity_indices extSample primMesh pvFaceVaryingW [] "uv" AiType.FLOAT
      { nelements := 3, type := AiType.FLOAT, ivalues := [] }
      (by simp) rfl rfl rfl (by decide) rfl).1,
    rfl⟩

/-- Claim C7: a Constant-interpolation attribute that does not clash with a
built-in is converted by a single scalar parameter set: no declaration, no
array attachment and no "idxs" parameter ever appear in the trace. -/
theorem constant_scalar_only (ext : Externals) (p : Primitive) (pv : PrimitiveVariable)
    (entry : List String) (name : String)
    (hc : pv.interpolation = Interp.Constant) (hne : name ∉ entry) :
    convertPrimitiveVariable ext p pv entry name = [Event.setParameter name pv.data]
    ∧ (∀ n ts, Event.declare n ts ∉ convertPrimitiveVariable ext p pv entry name)
    ∧ (∀ n a, Event.setArray n a ∉ convertPrimitiveVariable ext p pv entry name) := by
  have hic : arnoldInterpolationOf p pv.interpolation = "constant" := by
    rw [hc]
    rfl
  have hrm : remapForPoints p "constant" = "constant" := by
    unfold remapForPoints
    by_cases hp : p.kind = PrimKind.points
    · rw [if_pos hp, if_neg (by decide), if_neg (by decide)]
    · rw [if_neg hp]
  have htr : convertPrimitiveVariable ext p pv entry name = [Event.setParameter name pv.data] :=
    convertPV_constantMode ext p pv entry name hne (by rw [hic]; decide) (by rw [hic]; exact hrm)
  refine ⟨htr, ?_, ?_⟩
  · intro n ts hmem
    rw [htr] at hmem
    simp at hmem
  · intro n a hmem
    rw [htr] at hmem
    simp at hmem

/-- Claim C7 witness: a concrete Constant scalar attribute produces exactly
one scalar parameter set. -/
theorem constant_scalar_only_witness :
    convertPrimitiveVariable extSample primEmpty pvConstW [] "Cs" =
      [Event.setParameter "Cs" (Data.floatData 2)] :=
  (constant_scalar_only extSample primEmpty pvConstW [] "Cs" rfl (by simp)).1

/-- Claim C8: when the user parameter was declared but array construction
returns null, the trace is exactly the declaration followed by one
failed-to-create-array warning: the parameter stays declared but unset, and
no array, no "idxs" array and no scalar parameter is attached. -/
theorem array_construction_failure (ext : Externals) (p : Primitive) (pv : PrimitiveVariable)
    (entry : List String) (name : String) (t : AiType)
    (hne : name ∉ entry)
    (h0 : arnoldInterpolationOf p pv.interpolation ≠ "")
    (hcne : remapForPoints p (arnoldInterpolationOf p pv.interpolation) ≠ "constant")
    (ht : ext.parameterType pv.data = (t, true))
    (htn : t ≠ AiType.NONE)
    (ha : ext.dataToArray1 pv.data t = none) :
    convertPrimitiveVariable ext p pv entry name =
      [Event.declare name
          (remapForPoints p (arnoldInterpolationOf p pv.interpolation) ++ " " ++ typeName t),
        Event.warnFailedToCreateArray name]
    ∧ (convertPrimitiveVariable ext p pv entry name).count (Event.warnFailedToCreateArray name) = 1
    ∧ (∀ n a, Event.setArray n a ∉ convertPrimitiveVariable ext p pv entry name)
    ∧ (∀ n d, Event.setParameter n d ∉ convertPrimitiveVariable ext p pv entry name) := by
  have htr := convertPV_arrayNone ext p pv entry name t hne h0 hcne ht htn ha
  refine ⟨htr, ?_, ?_, ?_⟩
  · rw [htr]
    simp [List.count_cons]
  · intro n a hmem
    rw [htr] at hmem
    simp at hmem
  · intro n d hmem
    rw [htr] at hmem
    simp at hmem

/-- Claim C8 witness: an IntData attribute that extSample detects as an
array type but fails to convert leaves exactly a declaration and one
warning. -/
theorem array_construction_failure_witness :
    convertPrimitiveVariable extSample primEmpty pvIntW [] "ud" =
      [Event.declare "ud" "varying INT", Event.warnFailedToCreateArray "ud"] :=
  (array_construction_failure extSample primEmpty pvIntW [] "ud" AiType.INT
    (by simp) (by decide) (by decide) rfl (by decide) rfl).1

/-- gatherP fails exactly when some sample lacks a Vertex-interpolated
V3fVectorData "P" variable. -/
theorem gatherP_none_iff (samples : List Primitive) :
    gatherP samples = none ↔
      ∃ s ∈ samples, variableV3fVectorData s "P" (some Interp.Vertex) = none := by
  induction samples with
  | nil => simp [gatherP]
  | cons s rest ih =>
    cases h : variableV3fVectorData s "P" (some Interp.Vertex) with
    | none =>
      simp only [gatherP, h]
      constructor
      · intro _
        exact ⟨s, List.mem_cons_self s rest, h⟩
      · intro _
        trivial
    | some pts =>
      simp only [gatherP, h]
      rw [Option.map_eq_none', ih]
      constructor
      · rintro ⟨x, hx, hxn⟩
        exact ⟨x, List.mem_cons_of_mem s hx, hxn⟩
      · rintro ⟨x, hx, hxn⟩
        rcases List.mem_cons.mp hx with hxs | hxr
        · rw [hxs] at hxn
          rw [h] at hxn
          simp at hxn
        · exact ⟨x, hxr, hxn⟩

/-- Claim C3: position conversion (single- and multi-sample) fails exactly
when a supplied sample lacks a Vertex-interpolated V3fVectorData "P"
variable, and on failure the node trace is empty — the check precedes any
mutation, so there are no partial writes. -/
theorem convertP_requires_vertex_P (ext : Externals) (p : Primitive)
    (samples : List Primitive) (n1 n2 : String) :
    ((convertP1 ext p n1).2 ≠ none ↔ variableV3fVectorData p "P" (some Interp.Vertex) = none)
    ∧ ((convertP1 ext p n1).2 ≠ none → (convertP1 ext p n1).1 = [])
    ∧ ((convertPN ext samples n2).2 ≠ none ↔
        ∃ s ∈ samples, variableV3fVectorData s "P" (some Interp.Vertex) = none)
    ∧ ((convertPN ext samples n2).2 ≠ none → (convertPN ext samples n2).1 = []) := by
  refine ⟨?_, ?_, ?_, ?_⟩
  · cases h : variableV3fVectorData p "P" (some Interp.Vertex) with
    | none => simp [convertP1, h]
    | some pts => simp [convertP1, h]
  · cases h : variableV3fVectorData p "P" (some Interp.Vertex) with
    | none =>
      intro _
      simp [convertP1, h]
    | some pts =>
      intro hcon
      exact absurd (show (convertP1 ext p n1).2 = none by simp [convertP1, h]) hcon
  · rw [← gatherP_none_iff]
    cases hg : gatherP samples with
    | none => simp [convertPN, hg]
    | some ds => simp [convertPN, hg]
  · cases hg : gatherP samples with
    | none =>
      intro _
      simp [convertPN, hg]
    | some ds =>
      intro hcon
      exact absurd (show (convertPN ext samples n2).2 = none by simp [convertPN, hg]) hcon

/-- shouldSkip with a present ignore list decides membership. -/
theorem shouldSkip_some_iff (ns : List String) (name : String) :
    shouldSkip (some ns) name = true ↔ name ∈ ns := by
  simp only [shouldSkip, List.any_eq_true, beq_iff_eq]
  constructor
  · rintro ⟨x, hx, hxe⟩
    rw [hxe]
    exact hx
  · intro h
    exact ⟨name, h, rfl⟩

/-- No invocation in the loop carries an ignored name. -/
theorem convertLoop_not_mem (ext : Externals) (p : Primitive) (entry : List String)
    (ns : List String) (name : String) (h : name ∈ ns) :
    ∀ vs tr, (name, tr) ∉ convertLoop ext p entry (some ns) vs := by
  intro vs
  induction vs with
  | nil =>
    intro tr
    simp [convertLoop]
  | cons v rest ih =>
    intro tr hmem
    by_cases hsk : shouldSkip (some ns) v.1 = true
    · simp only [convertLoop] at hmem
      rw [if_pos hsk] at hmem
      exact ih tr hmem
    · simp only [convertLoop] at hmem
      rw [if_neg hsk] at hmem
      rcases List.mem_cons.mp hmem with heq | hmem2
      · have hfst : name = v.1 := congrArg Prod.fst heq
        exact hsk (by rw [← hfst]; exact (shouldSkip_some_iff ns name).mpr h)
      · exact ih tr hmem2

/-- The invocation names of the loop are the non-skipped variable names, in
order. -/
theorem convertLoop_map_fst (ext : Externals) (p : Primitive) (entry : List String)
    (ig : Option (List String)) :
    ∀ vs, (convertLoop ext p entry ig vs).map Prod.fst =
      (vs.map Prod.fst).filter (fun n => !shouldSkip ig n) := by
  intro vs
  induction vs with
  | nil => simp [convertLoop]
  | cons v rest ih =>
    by_cases hsk : shouldSkip ig v.1 = true
    · simp only [convertLoop]
      rw [if_pos hsk]
      rw [ih]
      simp [List.filter_cons, hsk]
    · simp only [convertLoop]
      rw [if_neg hsk]
      simp only [List.map_cons, ih]
      have hb : shouldSkip ig v.1 = false := by
        cases hv : shouldSkip ig v.1
        · rfl
        · exact absurd hv hsk
      simp [List.filter_cons, hb]

/-- Every non-skipped variable contributes its own invocation to the loop. -/
theorem convertLoop_mem_of_mem (ext : Externals) (p : Primitive) (entry : List String)
    (ig : Option (List String)) :
    ∀ vs (nv : String × PrimitiveVariable), nv ∈ vs → shouldSkip ig nv.1 = false →
      (nv.1, convertPrimitiveVariable ext p nv.2 entry nv.1) ∈ convertLoop ext p entry ig vs := by
  intro vs
  induction vs with
  | nil =>
    intro nv h
    simp at h
  | cons v rest ih =>
    intro nv hmem hns
    rcases List.mem_cons.mp hmem with heq | hmem2
    · subst heq
      simp only [convertLoop]
      rw [if_neg (by simp [hns])]
      exact List.mem_cons_self _ _
    · cases hsk : shouldSkip ig v.1 with
      | false =>
        simp only [convertLoop]
        rw [if_neg (by simp [hsk])]
        exact List.mem_cons_of_mem _ (ih nv hmem2 hns)
      | true =>
        simp only [convertLoop]
        rw [if_pos hsk]
        exact ih nv hmem2 hns

/-- Claim C9: bulk conversion with an exclusion list never invokes
single-attribute conversion for an excluded name, and invokes it exactly
once for every attribute whose name is not excluded. -/
theorem bulk_exclusion (ext : Externals) (p : Primitive) (entry : List String)
    (ignore : List String) (hnodup : (p.vars.map Prod.fst).Nodup) :
    (∀ name ∈ ignore, ∀ tr, (name, tr) ∉ convertPrimitiveVariables ext p entry (some ignore))
    ∧ (∀ nv ∈ p.vars, nv.1 ∉ ignore →
        (nv.1, convertPrimitiveVariable ext p nv.2 entry nv.1) ∈
            convertPrimitiveVariables ext p entry (some ignore)
        ∧ ((convertPrimitiveVariables ext p entry (some ignore)).map Prod.fst).count nv.1 = 1) := by
  constructor
  · intro name hmem tr
    exact convertLoop_not_mem ext p entry ignore name hmem p.vars tr
  · intro nv hmem hni
    have hns : shouldSkip (some ignore) nv.1 = false := by
      cases hsk : shouldSkip (some ignore) nv.1 with
      | false => rfl
      | true => exact absurd ((shouldSkip_some_iff ignore nv.1).mp hsk) hni
    constructor
    · exact convertLoop_mem_of_mem ext p entry (some ignore) p.vars nv hmem hns
    · show ((convertLoop ext p entry (some ignore) p.vars).map Prod.fst).count nv.1 = 1
      rw [convertLoop_map_fst]
      rw [List.count_filter (by simp [hns])]
      exact List.count_eq_one_of_mem hnodup (List.mem_map_of_mem Prod.fst hmem)

/-- Claim C9 witness: with "P" excluded, the "foo" attribute of a concrete
two-variable primitive is invoked exactly once and "P" is never invoked. -/
theorem bulk_exclusion_witness :
    ((primBulk.vars.map Prod.fst).Nodup)
    ∧ ("foo", convertPrimitiveVariable extSample primBulk
          { interpolation := Interp.Constant, data := Data.floatData 1 } [] "foo") ∈
        convertPrimitiveVariables extSample primBulk [] (some ["P"])
    ∧ ((convertPrimitiveVariables extSample primBulk [] (some ["P"])).map Prod.fst).count "foo" = 1 := by
  have hnodup : (primBulk.vars.map Prod.fst).Nodup := by
    simp [primBulk]
  have hmem : ("foo", ({ interpolation := Interp.Constant, data := Data.floatData 1 } :
      PrimitiveVariable)) ∈ primBulk.vars := by
    simp [primBulk]
  have h := (bulk_exclusion extSample primBulk [] ["P"] hnodup).2
    ("foo", { interpolation := Interp.Constant, data := Data.floatData 1 }) hmem (by simp)
  exact ⟨hnodup, h.1, h.2⟩

/-- The loop behaves identically under a null ignore pointer and an empty
ignore list. -/
theorem convertLoop_none_eq_some_nil (ext : Externals) (p : Primitive) (entry : List String) :
    ∀ vs, convertLoop ext p entry none vs = convertLoop ext p entry (some []) vs := by
  intro vs
  induction vs with
  | nil => rfl
  | cons v rest ih => simp [convertLoop, shouldSkip, ih]

/-- Claim C10: bulk conversion with a null exclusion-list pointer equals
bulk conversion with an empty exclusion list — every attribute of the
primitive is passed to single-attribute conversion and none is skipped. -/
theorem bulk_null_ignore (ext : Externals) (p : Primitive) (entry : List String) :
    convertPrimitiveVariables ext p entry none = convertPrimitiveVariables ext p entry (some [])
    ∧ (convertPrimitiveVariables ext p entry none).map Prod.fst = p.vars.map Prod.fst
    ∧ ∀ nv ∈ p.vars, (nv.1, convertPrimitiveVariable ext p nv.2 entry nv.1) ∈
        convertPrimitiveVariables ext p entry none := by
  refine ⟨convertLoop_none_eq_some_nil ext p entry p.vars, ?_, ?_⟩
  · show ((convertLoop ext p entry none p.vars).map Prod.fst) = p.vars.map Prod.fst
    rw [convertLoop_map_fst]
    simp [shouldSkip]
  · intro nv hmem
    exact convertLoop_mem_of_mem ext p entry none p.vars nv hmem rfl
